import Mathlib

/-!
# Verification of the qseek Squirrel waveform streaming pipeline

Shallow embedding of `src/qseek/waveforms/squirrel.py`:
`SquirrelPrefetcher` (background prefetch worker with a bounded queue),
`SquirrelStats` (live counters), and `PyrockoSquirrel.iter_batches`
(span resolution, batch cleaning/filtering, stats updates).

Conventions:
* instants (`datetime`) and durations (`timedelta`) are integer microseconds
  (Python's `datetime`/`timedelta` resolution);
* `timedelta.total_seconds()` is a rational;
* Python `float` division is modelled over `ℚ` together with Python's
  `ZeroDivisionError` behaviour (`x / 0.0` raises);
* fallible code returns `Except`.
-/

namespace Squirrel

/-- A Python exception relevant to this module. -/
inductive PyError where
  | zeroDivision : PyError
  | valueError : PyError
  deriving Repr, DecidableEq

/-- `timedelta.total_seconds()`: microseconds to rational seconds. -/
def totalSeconds (usec : Int) : ℚ := (usec : ℚ) / 1000000

/-- Modelled from the spec: a Trace (§4.1, GLOSSARY) is an opaque payload
with a byte size; `clean()` may drop invalid traces, so each trace carries
a validity flag. The concrete `Trace`/`WaveformBatch` classes live in
`qseek/waveforms/base.py`, which is not part of the sources. -/
structure Trace where
  nbytes : Nat
  valid : Bool
  deriving Repr, DecidableEq

/-- A raw batch from `squirrel.chopper_waveforms_async`
(`pyrocko.squirrel.base.Batch`): traces, window bounds `tmin`/`tmax`
(microsecond instants), index `i` and total `n`. -/
structure PyrockoBatch where
  traces : List Trace
  tmin : Int
  tmax : Int
  i : Nat
  n : Nat
  deriving Repr, DecidableEq

/-- Modelled from the spec: `WaveformBatch` of `qseek/waveforms/base.py`
(not in the sources); fields as constructed at `iter_batches`
(squirrel.py lines 228-234). -/
structure WaveformBatch where
  traces : List Trace
  start_time : Int
  end_time : Int
  i_batch : Nat
  n_batches : Nat
  deriving Repr, DecidableEq

namespace WaveformBatch

/-- Modelled from the spec: `clean()` "removes or repairs invalid
constituent traces in place" (§4.1): keep exactly the valid traces. -/
def clean_traces (b : WaveformBatch) : WaveformBatch :=
  { b with traces := b.traces.filter (·.valid) }

/-- Modelled from the spec: `is_empty()` is "true iff zero traces remain
after cleaning" (§4.1). -/
def is_empty (b : WaveformBatch) : Bool :=
  b.traces.isEmpty

/-- Modelled from the spec: `duration = end_time - start_time` (§3). -/
def duration (b : WaveformBatch) : Int :=
  b.end_time - b.start_time

/-- Modelled from the spec: `cumulative_bytes` is the "sum of per-trace
byte sizes" (§4.1). -/
def cumulative_bytes (b : WaveformBatch) : Nat :=
  (b.traces.map (·.nbytes)).sum

end WaveformBatch

/-- `WaveformBatch(traces=pyrocko_batch.traces, start_time=..tmin,
end_time=..tmax, i_batch=..i, n_batches=..n)` (squirrel.py 228-234). -/
def mkWaveformBatch (pb : PyrockoBatch) : WaveformBatch :=
  { traces := pb.traces
    start_time := pb.tmin
    end_time := pb.tmax
    i_batch := pb.i
    n_batches := pb.n }

/-! ## The prefetch worker (`SquirrelPrefetcher.prefetch_worker`) -/

/-- How the source iterator passed to `SquirrelPrefetcher` ends: either it
is exhausted normally (`StopAsyncIteration`) or it raises an exception
mid-iteration. -/
inductive SourceOutcome where
  | exhausted : SourceOutcome
  | raised : SourceOutcome
  deriving Repr, DecidableEq

/-- The source iterator: the batches it yields, then its outcome. -/
structure Source where
  batches : List PyrockoBatch
  outcome : SourceOutcome
  deriving Repr, DecidableEq

/-- The sequence of items `prefetch_worker` puts on `self.queue`
(squirrel.py 54-68): each fetched batch in order; after normal
exhaustion of `async for` the terminator `None` (line 68).  If the
iterator raises, the exception propagates out of the `async for` and the
task ends before line 68, so no terminator is enqueued. -/
def prefetchOutput (s : Source) : List (Option PyrockoBatch) :=
  match s.outcome with
  | .exhausted => s.batches.map some ++ [none]
  | .raised => s.batches.map some

/-! ## Timing of the prefetch worker

`prefetch_worker` with an explicit wall clock (squirrel.py 60-66):

```
start = datetime_now()                       -- line 60
async for batch in self.iterator:            -- awaits: fetch latency
    self.load_time = datetime_now() - start  -- line 62
    start = datetime_now()                   -- line 65
    await self.queue.put(batch)              -- line 66: may suspend
```

One loop iteration is a `workerStep` parameterised by the wall-clock time
the fetch took (`fetchLatency`) and the time `queue.put` stayed suspended
on a full queue (`putWait`). -/

/-- Worker timing state: current wall clock, the `start` variable, and the
successive values assigned to `self.load_time`. -/
structure WorkerTimedState where
  clock : Int
  start : Int
  loadTimes : List Int
  deriving Repr, DecidableEq

/-- One iteration of the `async for` loop of `prefetch_worker`. -/
def workerStep (st : WorkerTimedState) (fetchLatency putWait : Int) :
    WorkerTimedState :=
  let clockAfterFetch := st.clock + fetchLatency
  let lt := clockAfterFetch - st.start
  { clock := clockAfterFetch + putWait
    start := clockAfterFetch
    loadTimes := st.loadTimes ++ [lt] }

/-- Run `prefetch_worker`'s loop from wall-clock time `t0` over a list of
(fetch latency, put wait) pairs, one per source batch. -/
def runWorkerTimed (t0 : Int) (events : List (Int × Int)) : WorkerTimedState :=
  events.foldl (fun st e => workerStep st e.1 e.2)
    { clock := t0, start := t0, loadTimes := [] }

/-! ## Stats and the consumer loop of `PyrockoSquirrel.iter_batches` -/

/-- `SquirrelStats` (squirrel.py 71-75): counters and derived rates.
`time_per_batch` is a `timedelta` (microseconds), `bytes_per_seconds` a
Python float, modelled as `ℚ`. -/
structure SquirrelStats where
  empty_batches : Nat
  short_batches : Nat
  time_per_batch : Int
  bytes_per_seconds : ℚ
  deriving Repr, DecidableEq

/-- The stats object at stream start: all pydantic defaults are zero. -/
def initStats : SquirrelStats :=
  { empty_batches := 0
    short_batches := 0
    time_per_batch := 0
    bytes_per_seconds := 0 }

/-- Python float division `x / y`: raises `ZeroDivisionError` when the
divisor is zero, otherwise exact division (floats idealised as `ℚ`). -/
def pyFloatDiv (x y : ℚ) : Except PyError ℚ :=
  if y = 0 then .error .zeroDivision else .ok (x / y)

/-- The guard `if min_length and batch.duration < min_length`
(squirrel.py 248): Python truthiness makes `timedelta(0)` falsy, any
other `timedelta` truthy, so a zero `min_length` disables the filter. -/
def minLengthFilters (min_length : Option Int) (d : Int) : Bool :=
  match min_length with
  | none => false
  | some m => decide (m ≠ 0) && decide (d < m)

/-- Processing of one dequeued (non-terminator) batch by the `while` loop
of `iter_batches` (squirrel.py 228-257): construct the `WaveformBatch`,
clean it, set `time_per_batch` (to the wall-clock `elapsed` since the
dequeue began) and `bytes_per_seconds` (unguarded division by the
prefetcher's current `load_time`), then classify: empty batches bump
`empty_batches` and are dropped; short batches bump `short_batches` and
are dropped; the rest are yielded. -/
def consumeStep (min_length : Option Int) (loadTime elapsed : Int)
    (stats : SquirrelStats) (pb : PyrockoBatch) :
    Except PyError (SquirrelStats × Option WaveformBatch) :=
  let batch := (mkWaveformBatch pb).clean_traces
  let stats := { stats with time_per_batch := elapsed }
  match pyFloatDiv (batch.cumulative_bytes : ℚ) (totalSeconds loadTime) with
  | .error e => .error e
  | .ok rate =>
    let stats := { stats with bytes_per_seconds := rate }
    if batch.is_empty then
      .ok ({ stats with empty_batches := stats.empty_batches + 1 }, none)
    else if minLengthFilters min_length batch.duration then
      .ok ({ stats with short_batches := stats.short_batches + 1 }, none)
    else
      .ok (stats, some batch)

/-- Per-dequeue environment: the prefetcher's `load_time` at the moment
the batch is processed, and the wall-clock time the dequeue took. -/
structure DequeueEnv where
  loadTime : Int
  elapsed : Int
  deriving Repr, DecidableEq

/-- How a run of the consumer loop ends: `normal` (terminator dequeued,
`break` at line 226), `blockedForever` (queue empty and the producer task
has already died, so `await prefetcher.queue.get()` at line 223 never
resumes), or `failure` (an exception propagates out of the loop body). -/
inductive StreamEnd where
  | normal : StreamEnd
  | blockedForever : StreamEnd
  | failure : PyError → StreamEnd
  deriving Repr, DecidableEq

/-- Result of running the consumer loop: batches yielded to the caller in
order, final stats, and how the stream ended. -/
structure ConsumerResult where
  yielded : List WaveformBatch
  stats : SquirrelStats
  ending : StreamEnd
  deriving Repr, DecidableEq

/-- The `while True` loop of `iter_batches` (squirrel.py 221-259) run over
the finite list of items the producer task ever enqueues: a `None` item
breaks the loop normally; when the items run out without a terminator the
next `queue.get()` suspends forever; an exception in the body ends the
generator with that failure. -/
def runConsumerAux (min_length : Option Int) :
    List (Option PyrockoBatch) → List DequeueEnv → SquirrelStats →
    List WaveformBatch → ConsumerResult
  | [], _, stats, acc => ⟨acc, stats, .blockedForever⟩
  | none :: _, _, stats, acc => ⟨acc, stats, .normal⟩
  | some pb :: rest, envs, stats, acc =>
    let env := envs.headD ⟨0, 0⟩
    match consumeStep min_length env.loadTime env.elapsed stats pb with
    | .error e => ⟨acc, stats, .failure e⟩
    | .ok (stats', none) => runConsumerAux min_length rest envs.tail stats' acc
    | .ok (stats', some b) =>
      runConsumerAux min_length rest envs.tail stats' (acc ++ [b])

/-- End-to-end stream: the consumer loop applied to everything the
prefetch worker enqueues for a given source. -/
def runStream (min_length : Option Int) (s : Source)
    (envs : List DequeueEnv) : ConsumerResult :=
  runConsumerAux min_length (prefetchOutput s) envs initStats []

/-! ## Span resolution and preconditions of `iter_batches` -/

/-- Side effects of the setup phase of `iter_batches` in program order:
`self.get_squirrel()` (line 192), `squirrel.get_time_span(["waveform"])`
(line 194), `squirrel.chopper_waveforms_async(...)` (line 206). -/
inductive Effect where
  | getSquirrel : Effect
  | getTimeSpan : Effect
  | chopperWaveforms : Effect
  deriving Repr, DecidableEq

/-- Resolved time span (squirrel.py 196-197): `start_time = start_time or
self.start_time or to_datetime(sq_tmin)` and likewise for `end_time`.
Datetimes are truthy whenever non-`None`, so `or` picks the first
non-`None` value. -/
structure SpanResolution where
  start_time : Int
  end_time : Int
  deriving Repr, DecidableEq

/-- `start_time or self.start_time or to_datetime(sq_tmin)` for both
endpoints: caller argument, else configured field, else the extent
reported by `squirrel.get_time_span`. -/
def resolveTimeSpan (arg_start arg_end cfg_start cfg_end : Option Int)
    (sq_tmin sq_tmax : Int) : SpanResolution :=
  { start_time := (arg_start.orElse (fun _ => cfg_start)).getD sq_tmin
    end_time := (arg_end.orElse (fun _ => cfg_end)).getD sq_tmax }

/-- `PyrockoSquirrel._validate_model` (squirrel.py 144-148): raises
`ValueError` only when both configured bounds are set (non-`None`
datetimes are truthy) and `start_time > end_time` strictly. Runs at model
construction, on the configured fields only. -/
def validate_model (cfg_start cfg_end : Option Int) : Except PyError Unit :=
  match cfg_start, cfg_end with
  | some s, some e => if s > e then .error .valueError else .ok ()
  | _, _ => .ok ()

/-- Setup phase of `iter_batches` (squirrel.py 189-219): the prepared-
stations check (`if not self._stations: raise ValueError`, lines 189-190)
runs first; only then does the code touch the squirrel engine.
`stations` is `none` when `prepare()` was never called (the `_stations`
private attribute is still `None`). Returns the outcome together with
the engine effects actually performed. -/
def iterBatchesSetup (stations : Option Unit)
    (arg_start arg_end cfg_start cfg_end : Option Int)
    (sq_tmin sq_tmax : Int) :
    Except PyError SpanResolution × List Effect :=
  match stations with
  | none => (.error .valueError, [])
  | some _ =>
    (.ok (resolveTimeSpan arg_start arg_end cfg_start cfg_end sq_tmin sq_tmax),
      [.getSquirrel, .getTimeSpan, .chopperWaveforms])

/-! ## Producer/consumer interleaving and cancellation

`SquirrelPrefetcher.__init__` (squirrel.py 43-52) creates the worker with
a fire-and-forget `asyncio.create_task(self.prefetch_worker())`; nowhere
in the module is `self._task.cancel()` (or any other cancellation of the
worker) ever called, and `iter_batches` has no `try`/`finally` teardown.
The small-step system below has one rule per thing that can actually
happen in the code: the producer fetching, the producer putting (enabled
only when the bounded queue has room, `asyncio.Queue(maxsize=...)`), the
consumer dequeuing (only while its iteration is alive), and the consumer
being cancelled.  Faithfully to the source, no rule lets consumer
cancellation change the producer's state. -/

/-- Program counter of the producer task (`prefetch_worker`):
fetching the next batch from the iterator, suspended in
`await self.queue.put(batch)`, about to put the terminator, or done. -/
inductive ProducerPC where
  | fetching : List PyrockoBatch → ProducerPC
  | putting : PyrockoBatch → List PyrockoBatch → ProducerPC
  | puttingNone : ProducerPC
  | finished : ProducerPC
  deriving Repr, DecidableEq

/-- A configuration of the two-task system: producer state, queue
contents, fixed queue capacity, and whether the consumer's iteration is
still alive (not cancelled). -/
structure SystemConfig where
  producer : ProducerPC
  queue : List (Option PyrockoBatch)
  capacity : Nat
  consumerAlive : Bool
  deriving Repr, DecidableEq

/-- One step of the system. -/
inductive SysStep : SystemConfig → SystemConfig → Prop where
  | fetch (b : PyrockoBatch) (rest : List PyrockoBatch)
      (q : List (Option PyrockoBatch)) (cap : Nat) (alive : Bool) :
      SysStep ⟨.fetching (b :: rest), q, cap, alive⟩
        ⟨.putting b rest, q, cap, alive⟩
  | sourceDone (q : List (Option PyrockoBatch)) (cap : Nat) (alive : Bool) :
      SysStep ⟨.fetching [], q, cap, alive⟩ ⟨.puttingNone, q, cap, alive⟩
  | put (b : PyrockoBatch) (rest : List PyrockoBatch)
      (q : List (Option PyrockoBatch)) (cap : Nat) (alive : Bool)
      (h : q.length < cap) :
      SysStep ⟨.putting b rest, q, cap, alive⟩
        ⟨.fetching rest, q ++ [some b], cap, alive⟩
  | putNone (q : List (Option PyrockoBatch)) (cap : Nat) (alive : Bool)
      (h : q.length < cap) :
      SysStep ⟨.puttingNone, q, cap, alive⟩ ⟨.finished, q ++ [none], cap, alive⟩
  | consumerGet (p : ProducerPC) (x : Option PyrockoBatch)
      (q : List (Option PyrockoBatch)) (cap : Nat) :
      SysStep ⟨p, x :: q, cap, true⟩ ⟨p, q, cap, true⟩
  | consumerCancel (p : ProducerPC) (q : List (Option PyrockoBatch)) (cap : Nat) :
      SysStep ⟨p, q, cap, true⟩ ⟨p, q, cap, false⟩

/-- Reachability in the system. -/
def SysReach : SystemConfig → SystemConfig → Prop :=
  Relation.ReflTransGen SysStep

/-- Whether any step at all is enabled in a configuration (the system can
still make progress). -/
def sysCanProgress (c : SystemConfig) : Bool :=
  match c.producer with
  | .fetching _ => true
  | .putting _ _ => decide (c.queue.length < c.capacity) || c.consumerAlive
  | .puttingNone => decide (c.queue.length < c.capacity) || c.consumerAlive
  | .finished => c.consumerAlive

/-! ## Sample concrete data for evaluations -/

/-- A one-trace batch: 100 bytes of valid data over a one-second window. -/
def sampleBatch : PyrockoBatch := ⟨[⟨100, true⟩], 0, 1000000, 0, 2⟩

/-- A half-second, one-trace batch (shorter than a one-second
`min_length`). -/
def sampleShortBatch : PyrockoBatch := ⟨[⟨100, true⟩], 0, 500000, 0, 1⟩

/-- A half-second batch with no traces at all: both empty and shorter
than a one-second `min_length`. -/
def sampleEmptyShortBatch : PyrockoBatch := ⟨[], 0, 500000, 0, 1⟩

/-- A one-second batch with no traces. -/
def sampleEmptyBatch : PyrockoBatch := ⟨[], 0, 1000000, 0, 1⟩

/-- First batch of the two-batch source used in the cancellation
scenario. -/
def batchA : PyrockoBatch := ⟨[], 0, 0, 0, 2⟩

/-- Second batch of the two-batch source used in the cancellation
scenario. -/
def batchB : PyrockoBatch := ⟨[], 0, 0, 1, 2⟩

/-- The configuration reached in the cancellation scenario: capacity-one
queue already full, producer suspended in `queue.put`, consumer
cancelled. -/
def leakedConfig : SystemConfig := ⟨.putting batchB [], [some batchA], 1, false⟩

/-! ## Helper lemmas -/

/-- Unfolding of `consumeStep` when the byte-rate division succeeds
(`load_time` nonzero). -/
theorem consumeStep_eq (m : Option Int) (L e : Int) (stats : SquirrelStats)
    (pb : PyrockoBatch) (hL : totalSeconds L ≠ 0) :
    consumeStep m L e stats pb =
      (let batch := (mkWaveformBatch pb).clean_traces
       let stats' : SquirrelStats :=
         { stats with
            time_per_batch := e
            bytes_per_seconds := (batch.cumulative_bytes : ℚ) / totalSeconds L }
       if batch.is_empty then
         .ok ({ stats' with empty_batches := stats'.empty_batches + 1 }, none)
       else if minLengthFilters m batch.duration then
         .ok ({ stats' with short_batches := stats'.short_batches + 1 }, none)
       else .ok (stats', some batch)) := by
  unfold consumeStep pyFloatDiv
  simp only [if_neg hL]

/-- When the prefetcher's `load_time` is nonzero, the byte-rate division
succeeds and processing one batch never raises. -/
theorem consumeStep_isOk (m : Option Int) (L e : Int) (stats : SquirrelStats)
    (pb : PyrockoBatch) (hL : totalSeconds L ≠ 0) :
    ∃ p, consumeStep m L e stats pb = .ok p := by
  rw [consumeStep_eq m L e stats pb hL]
  dsimp only
  split
  · exact ⟨_, rfl⟩
  · split
    · exact ⟨_, rfl⟩
    · exact ⟨_, rfl⟩

/-- A configuration in which no step is enabled admits no step. -/
theorem sysStuck_of_cannotProgress (c : SystemConfig)
    (h : sysCanProgress c = false) : ∀ c', ¬ SysStep c c' := by
  intro c' hs
  cases hs with
  | fetch b rest q cap alive => simp [sysCanProgress] at h
  | sourceDone q cap alive => simp [sysCanProgress] at h
  | put b rest q cap alive hq =>
    simp [sysCanProgress] at h
    omega
  | putNone q cap alive hq =>
    simp [sysCanProgress] at h
    omega
  | consumerGet p x q cap =>
    cases p <;> simp [sysCanProgress] at h
  | consumerCancel p q cap =>
    cases p <;> simp [sysCanProgress] at h

/-- A run of the consumer loop over batch items only (no terminator),
with enough nonzero load times, ends blocked on the empty queue. -/
theorem runConsumerAux_blocked (m : Option Int) :
    ∀ (pbs : List PyrockoBatch) (envs : List DequeueEnv)
      (stats : SquirrelStats) (acc : List WaveformBatch),
      pbs.length ≤ envs.length →
      (∀ env ∈ envs, totalSeconds env.loadTime ≠ 0) →
      (runConsumerAux m (pbs.map some) envs stats acc).ending = .blockedForever
  | [], _, _, _, _, _ => rfl
  | pb :: rest, [], stats, acc, hlen, hL => by simp at hlen
  | pb :: rest, env :: envs, stats, acc, hlen, hL => by
    obtain ⟨p, hp⟩ := consumeStep_isOk m env.loadTime env.elapsed stats pb
      (hL env (List.mem_cons_self env envs))
    simp only [List.map_cons, runConsumerAux, List.headD_cons, List.tail_cons, hp]
    obtain ⟨stats', ob⟩ := p
    have hlen' : rest.length ≤ envs.length := by simpa using hlen
    have hL' : ∀ e ∈ envs, totalSeconds e.loadTime ≠ 0 :=
      fun e he => hL e (List.mem_cons_of_mem env he)
    cases ob with
    | none => exact runConsumerAux_blocked m rest envs stats' acc hlen' hL'
    | some b => exact runConsumerAux_blocked m rest envs stats' (acc ++ [b]) hlen' hL'

/-! ## Claims -/

/-- C5: the prefetch worker enqueues the terminator `None` exactly once,
after all batches and never before any of them, when and only when the
source iterator is exhausted normally; when the source raises, the
worker's task ends without ever enqueuing a terminator. -/
theorem prefetcher_terminator_iff_exhausted (s : Source) :
    (s.outcome = .exhausted →
      (prefetchOutput s).count none = 1 ∧
      (prefetchOutput s).getLast? = some none ∧
      ∀ x ∈ (prefetchOutput s).dropLast, x ≠ none) ∧
    (s.outcome = .raised → (prefetchOutput s).count none = 0) := by
  obtain ⟨batches, outcome⟩ := s
  constructor
  · intro h
    subst h
    refine ⟨?_, ?_, ?_⟩
    · simp [prefetchOutput, List.count_append]
      exact List.count_eq_zero.mpr (by simp)
    · simp [prefetchOutput]
    · intro x hx
      simp [prefetchOutput, List.dropLast_concat] at hx
      obtain ⟨b, _, rfl⟩ := hx
      simp
  · intro h
    subst h
    simp [prefetchOutput]
    exact List.count_eq_zero.mpr (by simp)

/-- Witness for C5 at a concrete exhausted source: exactly one
terminator. -/
theorem prefetcher_terminator_iff_exhausted_witness :
    (prefetchOutput ⟨[sampleBatch], .exhausted⟩).count none = 1 :=
  ((prefetcher_terminator_iff_exhausted ⟨[sampleBatch], .exhausted⟩).1 rfl).1

/-- C1 counterexample: the source raises after yielding batch 0.  The
stream yields batch 0, but on the next pull it neither surfaces a stream
failure nor ends: the worker died without enqueuing the terminator, so
`await prefetcher.queue.get()` blocks forever.  The claimed terminal
stream failure never reaches the caller. -/
theorem source_error_next_pull_blocks :
    (runStream none ⟨[sampleBatch], .raised⟩ [⟨500000, 0⟩]).yielded
        = [mkWaveformBatch sampleBatch] ∧
    (runStream none ⟨[sampleBatch], .raised⟩ [⟨500000, 0⟩]).ending
        = .blockedForever ∧
    (∀ err, StreamEnd.blockedForever ≠ .failure err) ∧
    StreamEnd.blockedForever ≠ .normal := by
  refine ⟨?_, ?_, ?_, ?_⟩
  · norm_num [runStream, prefetchOutput, runConsumerAux, consumeStep, pyFloatDiv,
      totalSeconds, sampleBatch, mkWaveformBatch, WaveformBatch.clean_traces,
      WaveformBatch.is_empty, WaveformBatch.cumulative_bytes, WaveformBatch.duration,
      minLengthFilters, initStats, List.filter]
  · norm_num [runStream, prefetchOutput, runConsumerAux, consumeStep, pyFloatDiv,
      totalSeconds, sampleBatch, mkWaveformBatch, WaveformBatch.clean_traces,
      WaveformBatch.is_empty, WaveformBatch.cumulative_bytes, WaveformBatch.duration,
      minLengthFilters, initStats, List.filter]
  · intro err h
    cases h
  · intro h
    cases h

/-- C1 amended: if the source iterator raises during background fetching,
the consumer stream yields the batches produced so far, and then the next
pull blocks forever — no terminal stream failure is surfaced, and the
stream also never terminates as if the source were exhausted (provided
every byte-rate division succeeds, i.e. each observed `load_time` is
nonzero). -/
theorem source_error_stalls_stream (m : Option Int) (s : Source)
    (envs : List DequeueEnv) (hs : s.outcome = .raised)
    (hlen : s.batches.length ≤ envs.length)
    (hL : ∀ env ∈ envs, totalSeconds env.loadTime ≠ 0) :
    (runStream m s envs).ending = .blockedForever := by
  obtain ⟨batches, outcome⟩ := s
  subst hs
  unfold runStream prefetchOutput
  exact runConsumerAux_blocked m batches envs initStats []
    (by simpa using hlen) hL

/-- Witness for C1 amended at a concrete one-batch raising source. -/
theorem source_error_stalls_stream_witness :
    (runStream none ⟨[sampleShortBatch], .raised⟩ [⟨250000, 0⟩]).ending
      = .blockedForever :=
  source_error_stalls_stream none ⟨[sampleShortBatch], .raised⟩ [⟨250000, 0⟩]
    rfl (by decide)
    (fun env henv => by
      rw [List.mem_singleton] at henv
      subst henv
      norm_num [totalSeconds])

/-- C2 counterexample: a batch processed while the prefetcher's
`load_time` is zero.  `iter_batches` divides by
`prefetcher.load_time.total_seconds()` with no guard (squirrel.py
239-241), so instead of recording a zero rate the loop raises
`ZeroDivisionError`. -/
theorem bytes_rate_zero_load_raises :
    consumeStep none 0 0 initStats sampleBatch = .error .zeroDivision ∧
    ∀ stats' ob, consumeStep none 0 0 initStats sampleBatch ≠ .ok (stats', ob) := by
  have h : consumeStep none 0 0 initStats sampleBatch = .error .zeroDivision := by
    norm_num [consumeStep, pyFloatDiv, totalSeconds, sampleBatch, mkWaveformBatch,
      WaveformBatch.clean_traces, WaveformBatch.cumulative_bytes, List.filter]
  refine ⟨h, ?_⟩
  intro stats' ob hok
  rw [h] at hok
  cases hok

/-- C2 amended: for every dequeued batch, the recorded
`bytes_per_seconds` equals the batch's cumulative bytes divided by the
prefetcher's `load_time` in seconds whenever that `load_time` is nonzero;
when it is zero, the unguarded division raises `ZeroDivisionError`
instead of recording a zero rate. -/
theorem bytes_rate_recorded (m : Option Int) (L e : Int)
    (stats : SquirrelStats) (pb : PyrockoBatch) :
    (totalSeconds L ≠ 0 →
      ∃ stats' ob, consumeStep m L e stats pb = .ok (stats', ob) ∧
        stats'.bytes_per_seconds =
          ((mkWaveformBatch pb).clean_traces.cumulative_bytes : ℚ) /
            totalSeconds L) ∧
    (totalSeconds L = 0 →
      consumeStep m L e stats pb = .error .zeroDivision) := by
  constructor
  · intro hL
    rw [consumeStep_eq m L e stats pb hL]
    dsimp only
    split
    · exact ⟨_, _, rfl, rfl⟩
    · split
      · exact ⟨_, _, rfl, rfl⟩
      · exact ⟨_, _, rfl, rfl⟩
  · intro hL0
    simp [consumeStep, pyFloatDiv, hL0]

/-- Witness for C2 amended: a 100-byte batch with a half-second
`load_time` records a rate of 100 bytes / 0.5 s. -/
theorem bytes_rate_recorded_witness :
    ∃ stats' ob,
      consumeStep none 500000 0 initStats sampleBatch = .ok (stats', ob) ∧
      stats'.bytes_per_seconds =
        ((mkWaveformBatch sampleBatch).clean_traces.cumulative_bytes : ℚ) /
          totalSeconds 500000 :=
  (bytes_rate_recorded none 500000 0 initStats sampleBatch).1
    (by norm_num [totalSeconds])

/-- C3 counterexample: two fetches with latencies 3 and 2; after the
first batch the producer stays suspended 5 ticks in `queue.put` because
the consumer is slow.  The recorded `load_time` of the second batch is 7,
not its source latency 2: the `start` reset (squirrel.py line 65) happens
before `await self.queue.put(batch)` (line 66), so queue-wait time is
charged to the next batch's `load_time`. -/
theorem load_time_includes_queue_wait :
    (runWorkerTimed 0 [(3, 5), (2, 0)]).loadTimes = [3, 7] ∧
    (runWorkerTimed 0 [(3, 5), (2, 0)]).loadTimes.getD 1 0 ≠ 2 := by decide

/-- C3 amended: the recorded `load_time` of each batch after the first
equals the time the previous `queue.put` spent suspended on a full queue
plus the wall-clock latency of the current fetch — it measures time since
the previous fetch completed, which is affected by how slowly the
consumer drains the queue. -/
theorem load_time_is_wait_plus_latency (st : WorkerTimedState)
    (l1 w1 l2 w2 : Int) :
    (workerStep (workerStep st l1 w1) l2 w2).loadTimes =
      (workerStep st l1 w1).loadTimes ++ [w1 + l2] := by
  simp [workerStep]
  ring

/-- C4 counterexample: both endpoints are supplied explicitly by the
caller, yet the setup phase of `iter_batches` still performs
`squirrel.get_time_span(["waveform"])` (squirrel.py line 194 runs
unconditionally, before the `or`-chains of lines 196-197). -/
theorem engine_extent_queried_despite_bounds :
    Effect.getTimeSpan ∈
      (iterBatchesSetup (some ()) (some 10) (some 20) none none 0 100).2 := by
  decide

/-- C4 amended: the effective span is resolved with precedence explicit
caller argument > configured bound > engine-reported extent, but the
engine's available extent (`get_time_span`) is queried unconditionally,
even when explicit or configured bounds are given. -/
theorem span_resolution_precedence (arg_s arg_e cfg_s cfg_e : Option Int)
    (t1 t2 : Int) :
    ((resolveTimeSpan arg_s arg_e cfg_s cfg_e t1 t2).start_time =
      match arg_s, cfg_s with
      | some v, _ => v
      | none, some w => w
      | none, none => t1) ∧
    ((resolveTimeSpan arg_s arg_e cfg_s cfg_e t1 t2).end_time =
      match arg_e, cfg_e with
      | some v, _ => v
      | none, some w => w
      | none, none => t2) ∧
    Effect.getTimeSpan ∈ (iterBatchesSetup (some ()) arg_s arg_e cfg_s cfg_e t1 t2).2 := by
  refine ⟨?_, ?_, ?_⟩
  · cases arg_s <;> cases cfg_s <;> simp [resolveTimeSpan, Option.orElse]
  · cases arg_e <;> cases cfg_e <;> simp [resolveTimeSpan, Option.orElse]
  · simp [iterBatchesSetup]

/-- C6 counterexample: a dequeued batch that is both empty and shorter
than the supplied `min_length`.  The emptiness check (squirrel.py 243)
runs before the duration check (line 248), so the batch is dropped with
`empty_batches` incremented and `short_batches` left at zero — not
incremented by exactly one as claimed. -/
theorem short_empty_batch_not_counted_short :
    consumeStep (some 1000000) 500000 0 initStats sampleEmptyShortBatch =
      .ok ({ initStats with empty_batches := 1 }, none) ∧
    (mkWaveformBatch sampleEmptyShortBatch).clean_traces.duration < 1000000 ∧
    ({ initStats with empty_batches := 1 } : SquirrelStats).short_batches ≠
      initStats.short_batches + 1 := by
  refine ⟨?_, by decide, by decide⟩
  norm_num [consumeStep, pyFloatDiv, totalSeconds, sampleEmptyShortBatch,
    mkWaveformBatch, WaveformBatch.clean_traces, WaveformBatch.is_empty,
    WaveformBatch.cumulative_bytes, WaveformBatch.duration, minLengthFilters,
    initStats, List.filter]

/-- C6 amended: for every dequeued batch that is non-empty after cleaning
(and with a successful byte-rate division, i.e. nonzero `load_time`, and
the batch invariant `start_time ≤ end_time`), a supplied `min_length`
filters exactly the batches with duration strictly below it, incrementing
`short_batches` by exactly one; a batch whose duration equals
`min_length` is not filtered and is yielded. -/
theorem min_length_boundary (stats : SquirrelStats) (L e : Int)
    (pb : PyrockoBatch) (m : Int) (hL : totalSeconds L ≠ 0)
    (hne : (mkWaveformBatch pb).clean_traces.is_empty = false)
    (hd : 0 ≤ (mkWaveformBatch pb).clean_traces.duration) :
    ((mkWaveformBatch pb).clean_traces.duration < m →
      consumeStep (some m) L e stats pb =
        .ok ({ stats with
                time_per_batch := e
                bytes_per_seconds :=
                  ((mkWaveformBatch pb).clean_traces.cumulative_bytes : ℚ) /
                    totalSeconds L
                short_batches := stats.short_batches + 1 }, none)) ∧
    ((mkWaveformBatch pb).clean_traces.duration = m →
      consumeStep (some m) L e stats pb =
        .ok ({ stats with
                time_per_batch := e
                bytes_per_seconds :=
                  ((mkWaveformBatch pb).clean_traces.cumulative_bytes : ℚ) /
                    totalSeconds L },
          some ((mkWaveformBatch pb).clean_traces))) := by
  have hbe := consumeStep_eq (some m) L e stats pb hL
  constructor
  · intro hlt
    have hm : m ≠ 0 := by omega
    rw [hbe]
    simp [hne, minLengthFilters, hm, hlt]
  · intro hde
    rw [hbe]
    simp [hne, minLengthFilters, hde]

/-- Witness for C6 amended: a non-empty half-second batch against a
one-second `min_length` is dropped with `short_batches` going from 0 to
1. -/
theorem min_length_boundary_witness :
    consumeStep (some 1000000) 500000 0 initStats sampleShortBatch =
      .ok ({ initStats with
              time_per_batch := 0
              bytes_per_seconds :=
                ((mkWaveformBatch sampleShortBatch).clean_traces.cumulative_bytes : ℚ) /
                  totalSeconds 500000
              short_batches := 1 }, none) :=
  (min_length_boundary initStats 500000 0 sampleShortBatch 1000000
    (by norm_num [totalSeconds]) (by decide) (by decide)).1 (by decide)

/-- C7 counterexample: an empty batch dequeued while the prefetcher's
`load_time` is zero.  The unguarded byte-rate division (squirrel.py
239-241) raises `ZeroDivisionError` before the emptiness check (line
243), so the batch is never classified and `empty_batches` is not
incremented. -/
theorem empty_batch_zero_load_raises :
    consumeStep none 0 0 initStats sampleEmptyBatch = .error .zeroDivision ∧
    (mkWaveformBatch sampleEmptyBatch).clean_traces.is_empty = true := by
  refine ⟨?_, by decide⟩
  norm_num [consumeStep, pyFloatDiv, totalSeconds, sampleEmptyBatch,
    mkWaveformBatch, WaveformBatch.clean_traces, WaveformBatch.cumulative_bytes,
    List.filter]

/-- C7 amended: provided the byte-rate division succeeds (nonzero
`load_time`), every dequeued batch with zero traces after cleaning is
dropped, never yielded, and increments `empty_batches` by exactly one. -/
theorem empty_batch_filtered (m : Option Int) (L e : Int)
    (stats : SquirrelStats) (pb : PyrockoBatch)
    (hL : totalSeconds L ≠ 0)
    (he : (mkWaveformBatch pb).clean_traces.is_empty = true) :
    consumeStep m L e stats pb =
      .ok ({ stats with
              time_per_batch := e
              bytes_per_seconds :=
                ((mkWaveformBatch pb).clean_traces.cumulative_bytes : ℚ) /
                  totalSeconds L
              empty_batches := stats.empty_batches + 1 }, none) := by
  rw [consumeStep_eq m L e stats pb hL]
  simp [he]

/-- Witness for C7 amended: a concrete empty batch with a half-second
`load_time` bumps `empty_batches` from 0 to 1 and is not yielded. -/
theorem empty_batch_filtered_witness :
    consumeStep none 500000 0 initStats sampleEmptyBatch =
      .ok ({ initStats with
              time_per_batch := 0
              bytes_per_seconds :=
                ((mkWaveformBatch sampleEmptyBatch).clean_traces.cumulative_bytes : ℚ) /
                  totalSeconds 500000
              empty_batches := 1 }, none) :=
  empty_batch_filtered none 500000 0 initStats sampleEmptyBatch
    (by norm_num [totalSeconds]) (by decide)

/-- C8: with no prepared stations (`prepare()` never called, `_stations`
still `None`), `iter_batches` raises its precondition error immediately
and performs no engine effects at all; with stations bound it proceeds to
span resolution without raising that error. -/
theorem not_prepared_guard (arg_s arg_e cfg_s cfg_e : Option Int)
    (t1 t2 : Int) :
    iterBatchesSetup none arg_s arg_e cfg_s cfg_e t1 t2 =
      (.error .valueError, []) ∧
    ∀ u : Unit, iterBatchesSetup (some u) arg_s arg_e cfg_s cfg_e t1 t2 =
      (.ok (resolveTimeSpan arg_s arg_e cfg_s cfg_e t1 t2),
        [.getSquirrel, .getTimeSpan, .chopperWaveforms]) :=
  ⟨rfl, fun _ => rfl⟩

/-- C9 counterexample: configured `start_time` equal to `end_time`.
`_validate_model` (squirrel.py 144-148) uses a strict `>` on the
configured fields only, so the resolved span proceeds with
`start_time = end_time` and no error is ever surfaced, contradicting the
claimed invariant `resolved start < resolved end`. -/
theorem equal_bounds_pass_validation :
    validate_model (some 5) (some 5) = .ok () ∧
    (iterBatchesSetup (some ()) none none (some 5) (some 5) 0 100).1 =
      .ok { start_time := 5, end_time := 5 } ∧
    ¬ ((5 : Int) < 5) :=
  ⟨rfl, rfl, by decide⟩

/-- C9 amended: the only span validation is at model construction:
`ValueError` is raised exactly when both configured bounds are set and
the configured `start_time` is strictly greater than the configured
`end_time`.  Caller-supplied bounds and the resolved span are never
checked, so streams with resolved start ≥ end proceed without error. -/
theorem validate_model_configured_strict (cfg_s cfg_e : Option Int) :
    validate_model cfg_s cfg_e = .error .valueError ↔
      ∃ s e, cfg_s = some s ∧ cfg_e = some e ∧ s > e := by
  cases cfg_s with
  | none => simp [validate_model]
  | some s =>
    cases cfg_e with
    | none => simp [validate_model]
    | some e =>
      simp only [validate_model]
      by_cases h : s > e
      · rw [if_pos h]
        simp [h]
      · rw [if_neg h]
        simp [h]

/-- C10 counterexample: with a capacity-one queue and a two-batch source,
the producer fills the queue, starts `queue.put` for the second batch and
suspends; the consumer is then cancelled.  The resulting configuration is
reachable, the consumer is gone, and the producer task remains suspended
attempting to enqueue, with no step ever available to it again: nothing
in `SquirrelPrefetcher.__init__` (squirrel.py 43-52) or `iter_batches`
ties the task's lifetime to the consumer or cancels it. -/
theorem cancelled_consumer_leaves_suspended_producer :
    SysReach ⟨.fetching [batchA, batchB], [], 1, true⟩ leakedConfig ∧
    leakedConfig.consumerAlive = false ∧
    leakedConfig.producer = .putting batchB [] ∧
    ∀ c', ¬ SysStep leakedConfig c' := by
  refine ⟨?_, rfl, rfl, sysStuck_of_cannotProgress leakedConfig (by decide)⟩
  exact Relation.ReflTransGen.head (SysStep.fetch batchA [batchB] [] 1 true)
    (Relation.ReflTransGen.head
      (SysStep.put batchA [batchB] [] 1 true (by decide))
      (Relation.ReflTransGen.head
        (SysStep.fetch batchB [] [some batchA] 1 true)
        (Relation.ReflTransGen.head
          (SysStep.consumerCancel (.putting batchB []) [some batchA] 1)
          Relation.ReflTransGen.refl)))

/-- C10 amended: cancelling the consumer's iteration does not cancel or
stop the background producer task: once the consumer is cancelled, a
producer suspended in `queue.put` on a full queue can never take another
step — it remains suspended on the abandoned queue forever (a leaked
producer). -/
theorem cancellation_does_not_stop_producer (c c' : SystemConfig)
    (b : PyrockoBatch) (rest : List PyrockoBatch)
    (halive : c.consumerAlive = false)
    (hfull : c.capacity ≤ c.queue.length)
    (hpc : c.producer = .putting b rest) :
    ¬ SysStep c c' := by
  apply sysStuck_of_cannotProgress
  obtain ⟨p, q, cap, alive⟩ := c
  dsimp only at halive hfull hpc
  subst hpc
  subst halive
  simp [sysCanProgress]
  omega

/-- Witness for C10 amended at the concrete leaked configuration. -/
theorem cancellation_does_not_stop_producer_witness :
    ¬ SysStep leakedConfig leakedConfig :=
  cancellation_does_not_stop_producer leakedConfig leakedConfig batchB []
    rfl (by decide) rfl

end Squirrel
